import Mathlib

set_option synthInstance.maxSize 4096

/-
Verification of the directory-backed object store implemented in
src/ixdat/backends/directory_backend.py.

The embedding is shallow: every function of the Python module is translated
into a computable Lean function over an explicit model of the file system.
Python exceptions become the `Except PyErr` monad; `pathlib.Path` stem and
suffix arithmetic and Python's `str.split` / `int()` are modelled
character-by-character so that the codec behaviour (leading-token parsing,
name rejoining) is faithful.  File contents are modelled structurally
(a JSON-serialised metadata mapping or a NumPy payload).  A single file
system is assumed, so `Path.resolve`/`Path.lstat` identity used by
`DirBackend.__eq__` coincides with path-string equality.
-/

/-- Python exception classes that the translated code can raise. -/
inductive PyErr where
  | valueError
  | typeError
  | attributeError
  | fileNotFound
  deriving DecidableEq, Repr

deriving instance DecidableEq for Except

/-- Python `s.split(c)` for a one-character separator: splitting an empty
string yields `[""]`, and separators at the ends yield empty tokens. -/
def splitOnChar (c : Char) : List Char → List (List Char)
  | [] => [[]]
  | x :: xs =>
    if x = c then [] :: splitOnChar c xs
    else
      match splitOnChar c xs with
      | y :: ys => (x :: y) :: ys
      | [] => [[x]]

/-- Python `"".join(tokens)`: plain concatenation with no separator. -/
def joinChars : List (List Char) → List Char
  | [] => []
  | l :: ls => l ++ joinChars ls

/-- All-digit parse of a nonempty token (accumulator form), as `int()` does
after sign and whitespace handling. -/
def parseDigitsAux : Nat → List Char → Option Nat
  | acc, [] => some acc
  | acc, c :: cs =>
    if '0' ≤ c ∧ c ≤ '9' then parseDigitsAux (acc * 10 + (c.toNat - '0'.toNat)) cs
    else none

/-- Nonempty string of ASCII decimal digits, as the digit body of `int()`. -/
def parseDigits : List Char → Option Nat
  | [] => none
  | c :: cs => parseDigitsAux 0 (c :: cs)

/-- Strip leading and trailing whitespace, as `int()` tolerates. -/
def stripChars (s : List Char) : List Char :=
  ((s.dropWhile Char.isWhitespace).reverse.dropWhile Char.isWhitespace).reverse

/-- Python `int(s)` on a string: optional surrounding whitespace, an optional
single sign, then one or more ASCII digits; `none` models the `ValueError`
raised on any other input. -/
def pyIntChars (s : List Char) : Option Int :=
  match stripChars s with
  | '-' :: rest => (parseDigits rest).map (fun n => -(n : Int))
  | '+' :: rest => (parseDigits rest).map (fun n => (n : Int))
  | rest => (parseDigits rest).map (fun n => (n : Int))

def pyInt (s : String) : Option Int := pyIntChars s.data

/-- Splits a character list at its last `'.'`: `some (before, after)` with
`name = before ++ '.' :: after` and no `'.'` in `after`; `none` when the
name holds no dot. -/
def splitAtLastDot : List Char → Option (List Char × List Char)
  | [] => none
  | c :: cs =>
    match splitAtLastDot cs with
    | some (b, a) => some (c :: b, a)
    | none => if c = '.' then some ([], cs) else none

/-- The `pathlib` stem/suffix split of a file name: the suffix starts at the last
dot provided that dot is neither the first nor the last character; otherwise
the suffix is empty and the stem is the whole name. -/
def pathSplit (name : List Char) : List Char × List Char :=
  match splitAtLastDot name with
  | some (b, a) => if b ≠ [] ∧ a ≠ [] then (b, '.' :: a) else (name, [])
  | none => (name, [])

def pathStemChars (name : List Char) : List Char := (pathSplit name).1

def pathSuffixChars (name : List Char) : List Char := (pathSplit name).2

def pathStem (name : String) : String := String.mk (pathStemChars name.data)

def pathSuffix (name : String) : String := String.mk (pathSuffixChars name.data)

/-- Model of `pathlib.Path.with_suffix`: the new suffix must be empty or start with a
dot and not be a bare dot, else `ValueError`; the result is the stem with the
new suffix appended. -/
def withSuffix (name : String) (s : String) : Except PyErr String :=
  match s.data with
  | [] => Except.ok (String.mk (pathStemChars name.data))
  | c :: rest =>
    if c ≠ '.' then Except.error PyErr.valueError
    else if rest = [] then Except.error PyErr.valueError
    else Except.ok (String.mk (pathStemChars name.data ++ s.data))

/-- First underscore-delimited token of a character list (`split("_")[0]`). -/
def headTokenChars (name : List Char) : List Char :=
  (splitOnChar '_' name).headD []

/-- Translation of `id_from_path` (directory_backend.py line 7): parse the first
underscore-delimited token of the path's stem as an integer, `None` on
`ValueError`. -/
def id_from_path (name : String) : Option Int :=
  pyIntChars (headTokenChars (pathStemChars name.data))

/-- Translation of `name_from_path` (directory_backend.py line 14): `"".join` of all
stem tokens after the first — note the empty separator in the source. -/
def name_from_path (name : String) : String :=
  String.mk (joinChars ((splitOnChar '_' (pathStemChars name.data)).drop 1))

/-- Serialisable metadata mapping produced by an object's `as_dict`.  The
store treats it as opaque apart from the `"name"` and `"data"` fields it
reads and overwrites; `data_object_ids` models the embedded references a
parent's serialisation carries to its owned data objects. -/
structure ObjDict where
  name : String
  data : Option (List Int)
  data_object_ids : List (Option Int)
  deriving DecidableEq, Repr

/-- Content of a row file: a JSON-serialised metadata mapping (written by
`json.dump`) or a binary NumPy payload (written by `np.save`). -/
inductive FileContent where
  | json (d : ObjDict)
  | npy (xs : List Int)
  deriving DecidableEq, Repr

/-- A directory entry as `Path.iterdir` yields it: a plain file with content,
or a sub-directory. -/
inductive Entry where
  | file (name : String) (content : FileContent)
  | subdir (name : String)
  deriving DecidableEq, Repr

def Entry.entryName : Entry → String
  | Entry.file n _ => n
  | Entry.subdir n => n

/-- Model of `Path.is_dir()` for a directory entry. -/
def Entry.isDir : Entry → Bool
  | Entry.file _ _ => false
  | Entry.subdir _ => true

/-- The file system: an association list from folder path (directory/table)
to that folder's entries, in `iterdir` order.  Folders absent from the list
do not exist (`iterdir` on them raises `FileNotFoundError`). -/
abbrev FS := List (String × List Entry)

def fsFind : FS → String → Option (List Entry)
  | [], _ => none
  | (k, es) :: rest, p => if k = p then some es else fsFind rest p

/-- Model of `if not folder.exists(): folder.mkdir()` — adds an empty folder when
absent, otherwise leaves the file system unchanged. -/
def fsEnsureDir (fs : FS) (p : String) : FS :=
  match fsFind fs p with
  | some _ => fs
  | none => fs ++ [(p, [])]

/-- Model of `open(path, "w")` followed by a write: truncates an existing file of the same
name, else creates the file at the end of the folder listing. -/
def writeInFolder : List Entry → String → FileContent → List Entry
  | [], n, c => [Entry.file n c]
  | Entry.file n' c' :: rest, n, c =>
    if n' = n then Entry.file n c :: rest
    else Entry.file n' c' :: writeInFolder rest n c
  | Entry.subdir n' :: rest, n, c => Entry.subdir n' :: writeInFolder rest n c

def fsWrite : FS → String → String → FileContent → FS
  | [], _, _, _ => []
  | (k, es) :: rest, p, n, c =>
    if k = p then (k, writeInFolder es n c) :: rest
    else (k, es) :: fsWrite rest p n c

/-- Content of the file with the given name in a folder, `none` if absent
(`FileNotFoundError` on open). -/
def findFile : List Entry → String → Option FileContent
  | [], _ => none
  | Entry.file n c :: rest, p => if n = p then some c else findFile rest p
  | Entry.subdir _ :: rest, p => findFile rest p

/-- Translation of `DirBackend.__init__` (directory_backend.py line 21): the three
construction parameters, stored on the instance and never reassigned. -/
structure DirBackend where
  directory : String
  suffix : String
  data_suffix : String
  deriving DecidableEq, Repr

/-- Translation of `DirBackend.name` (line 32): the f-string rendering of the directory. -/
def DirBackend.name (b : DirBackend) : String :=
  "DirBackend(" ++ b.directory ++ ")"

/-- Translation of `DirBackend.__eq__` (line 130): true for the same instance, or when both
directories resolve to the same canonical location with identical `lstat`
identity.  Under the single-file-system model a canonical path is the path
string itself, so this is directory equality. -/
def beEq (other self_ : DirBackend) : Bool :=
  other.directory = self_.directory

/-- A bulk-data ("data") object as `save_data_obj` manipulates it: display
name, declared table, the mutable `id`/`backend` binding fields, and its
numeric payload. -/
structure DataObj where
  name : String
  table_name : String
  id : Option Int
  backend : Option DirBackend
  data : List Int
  deriving DecidableEq, Repr

/-- A storable object as `save`/`load_obj_data` manipulate it.  `backend`
and `backend_name` are distinct attributes in the Python object model:
`open`/`save_data_obj` assign the former, `save` assigns the latter.
`has_data_attr` models `hasattr(obj, "data")`. -/
structure PyObj where
  name : String
  table_name : String
  id : Option Int
  backend : Option DirBackend
  backend_name : Option String
  has_data_attr : Bool
  data_objects : List DataObj
  deriving DecidableEq, Repr

/-- Modelled from the spec: the Storable Object contract's
`as_serializable_fields` for a bulk-data object (§6) — the object classes
themselves are outside the provided sources.  The mapping carries the
object's display name and a `"data"` field holding its bulk array. -/
def dataObjAsDict (d : DataObj) : ObjDict :=
  { name := d.name, data := some d.data, data_object_ids := [] }

/-- Modelled from the spec: `as_serializable_fields` for a parent object
(§4.4 step 1 and §6) — the parent's serialised form embeds each owned
child's *current* identifier as a reference, and carries no bulk data of
its own. -/
def pyObjAsDict (o : PyObj) : ObjDict :=
  { name := o.name, data := none,
    data_object_ids := o.data_objects.map DataObj.id }

/-- Modelled from the spec: the Storable Object contract's
`from_serializable_fields` (§6), reconstructing an unbound instance of the
given kind from its metadata mapping. -/
def fromDict (table : String) (d : ObjDict) : PyObj :=
  { name := d.name, table_name := table, id := none, backend := none,
    backend_name := none, has_data_attr := false, data_objects := [] }

/-- The folder `self.directory / table_name`. -/
def DirBackend.folderPath (b : DirBackend) (table : String) : String :=
  b.directory ++ "/" ++ table

/-- Loop body of `get_id_list` (lines 118-124): for each non-directory
entry, `int(file.name.split("_")[0])` is appended; the `except TypeError`
clause in the source never fires because `int` on a string raises
`ValueError`, so a malformed name propagates as an error. -/
def idScan : List Entry → Except PyErr (List Int)
  | [] => Except.ok []
  | e :: rest =>
    if e.isDir then idScan rest
    else
      match pyIntChars (headTokenChars e.entryName.data) with
      | some i => (idScan rest).map (fun is => i :: is)
      | none => Except.error PyErr.valueError

/-- Translation of `DirBackend.get_id_list` (line 115). -/
def DirBackend.get_id_list (b : DirBackend) (fs : FS) (table : String) :
    Except PyErr (List Int) :=
  match fsFind fs (b.folderPath table) with
  | none => Except.error PyErr.fileNotFound
  | some es => idScan es

/-- Translation of `DirBackend.get_next_available_id` (line 127): `max(...) + 1`; `max` of
an empty sequence raises `ValueError`. -/
def DirBackend.get_next_available_id (b : DirBackend) (fs : FS)
    (table : String) : Except PyErr Int := do
  let ids ← b.get_id_list fs table
  match ids.max? with
  | some m => Except.ok (m + 1)
  | none => Except.error PyErr.valueError

/-- The string Python's f-string produces for the built-in function `id`:
line 92 of the source interpolates the builtin, not the allocated integer. -/
def builtinIdStr : String := "<built-in function id>"

/-- Translation of `DirBackend.add_row` (line 85): ensure the folder, allocate the next id,
then write the serialised mapping to `f"{id}_{name}.{suffix}"` — where `id`
is the Python builtin, reproduced here as its f-string rendering. -/
def DirBackend.add_row (b : DirBackend) (fs : FS) (d : ObjDict)
    (table : String) : Except PyErr (Int × FS) := do
  let fs1 := fsEnsureDir fs (b.folderPath table)
  let i ← b.get_next_available_id fs1 table
  let file_name := builtinIdStr ++ "_" ++ d.name ++ "." ++ b.suffix
  let fs2 := fsWrite fs1 (b.folderPath table) file_name (FileContent.json d)
  Except.ok (i, fs2)

/-- Scan of `get_path_to_row`'s generator (lines 107-111): the first entry
whose `id_from_path` equals `i` and whose `Path.suffix` equals the
configured suffix. -/
def rowScan (sfx : String) (i : Option Int) : List Entry → Option String
  | [] => none
  | e :: rest =>
    if id_from_path e.entryName = i ∧ pathSuffix e.entryName = sfx then
      some e.entryName
    else rowScan sfx i rest

/-- Translation of `DirBackend.get_path_to_row` (line 104): `None` (caught `StopIteration`)
when no entry matches. -/
def DirBackend.get_path_to_row (b : DirBackend) (fs : FS) (table : String)
    (i : Option Int) : Except PyErr (Option String) :=
  match fsFind fs (b.folderPath table) with
  | none => Except.error PyErr.fileNotFound
  | some es => Except.ok (rowScan b.suffix i es)

/-- Translation of `DirBackend.contains` (line 57): membership of `i` in `get_id_list`;
`None` is never equal to an integer under Python `in`. -/
def DirBackend.contains (b : DirBackend) (fs : FS) (table : String)
    (i : Option Int) : Except PyErr Bool := do
  let ids ← b.get_id_list fs table
  match i with
  | some n => Except.ok (ids.contains n)
  | none => Except.ok false

/-- Translation of `DirBackend.load_obj_data` (line 60): no-op without a `data` attribute;
otherwise look the row up, swap in the data suffix and `np.load` it,
catching only `FileNotFoundError`.  When `get_path_to_row` returned `None`,
`None.with_suffix` raises `AttributeError`. -/
def DirBackend.load_obj_data (b : DirBackend) (fs : FS) (obj : PyObj) :
    Except PyErr (Option (List Int)) := do
  if obj.has_data_attr = false then
    Except.ok none
  else do
    let p? ← b.get_path_to_row fs obj.table_name obj.id
    match p? with
    | none => Except.error PyErr.attributeError
    | some p => do
      let q ← withSuffix p b.data_suffix
      match fsFind fs (b.folderPath obj.table_name) with
      | none => Except.ok none
      | some es =>
        match findFile es q with
        | some (FileContent.npy a) => Except.ok (some a)
        | some (FileContent.json _) => Except.error PyErr.valueError
        | none => Except.ok none

/-- The dedup guard of line 73,
`data_obj.backend == self and self.contains(table_name, data_obj.id)`:
Python's `and` short-circuits, so `contains` (and any error it raises) only
runs when the bound backend compares equal to this store; an unbound
(`None`) backend never compares equal. -/
def DirBackend.dedup_guard (b : DirBackend) (fs : FS) (dobj : DataObj) :
    Except PyErr Bool :=
  match dobj.backend with
  | some b2 => if beEq b2 b then b.contains fs dobj.table_name dobj.id
               else Except.ok false
  | none => Except.ok false

/-- Translation of `DirBackend.save_data_obj` (line 71).  On the write path the payload is
extracted from the mapping (`dataObjAsDict` always supplies it, so `getD`
never defaults), the metadata row is added, the object is bound, and
`np.save` writes the blob — appending `.npy` unless the name already ends
with it. -/
def DirBackend.save_data_obj (b : DirBackend) (fs : FS) (dobj : DataObj) :
    Except PyErr (Option Int × DataObj × FS) := do
  let table := dobj.table_name
  let ded ← b.dedup_guard fs dobj
  if ded then
    Except.ok (dobj.id, dobj, fs)
  else do
    let d0 := dataObjAsDict dobj
    let data := d0.data
    let d1 : ObjDict := { d0 with data := none }
    let (i, fs1) ← b.add_row fs d1 table
    let dobj1 : DataObj := { dobj with id := some i, backend := some b }
    let data_file_name := toString i ++ "_" ++ dobj1.name ++ "." ++ b.data_suffix
    let fname := if (".npy".data).isSuffixOf data_file_name.data then
        data_file_name
      else data_file_name ++ ".npy"
    let fs2 := fsWrite fs1 (b.folderPath table) fname
      (FileContent.npy (data.getD []))
    Except.ok (some i, dobj1, fs2)

/-- The child-saving loop of `save` (lines 37-40), threading the in-place
mutation of each data object and the file system through the list in the
collection's given order. -/
def DirBackend.saveChildren (b : DirBackend) :
    FS → List DataObj → Except PyErr (List DataObj × FS)
  | fs, [] => Except.ok ([], fs)
  | fs, c :: cs => do
    let (_, c1, fs1) ← b.save_data_obj fs c
    let (cs1, fs2) ← b.saveChildren fs1 cs
    Except.ok (c1 :: cs1, fs2)

/-- Translation of `DirBackend.save` (line 36): children first, then the table name (the
`AttributeError` fallback to `str(type(obj))` is not exercised because the
Storable contract of §6 always declares `table_name`), then `as_dict` of the
post-save state, `add_row`, and binding of `id` and `backend_name`. -/
def DirBackend.save (b : DirBackend) (fs : FS) (obj : PyObj) :
    Except PyErr (Int × PyObj × FS) := do
  let (cs, fs1) ← b.saveChildren fs obj.data_objects
  let obj1 : PyObj := { obj with data_objects := cs }
  let d := pyObjAsDict obj1
  let (i, fs2) ← b.add_row fs1 d obj1.table_name
  let obj2 : PyObj := { obj1 with id := some i, backend_name := some b.name }
  Except.ok (i, obj2, fs2)

/-- Translation of `DirBackend.open_serialization` (line 98): `open(None, "r")` raises
`TypeError` when the row was not found; `json.load` of a binary payload
file raises a decode error (a `ValueError`). -/
def DirBackend.open_serialization (b : DirBackend) (fs : FS) (table : String)
    (i : Option Int) : Except PyErr ObjDict := do
  let p? ← b.get_path_to_row fs table i
  match p? with
  | none => Except.error PyErr.typeError
  | some p =>
    match fsFind fs (b.folderPath table) with
    | none => Except.error PyErr.fileNotFound
    | some es =>
      match findFile es p with
      | some (FileContent.json d) => Except.ok d
      | some (FileContent.npy _) => Except.error PyErr.valueError
      | none => Except.error PyErr.fileNotFound

/-- Translation of `DirBackend.open` (line 50): read the serialisation, reconstruct via the
kind's deserialisation contract, and bind `obj.backend` to this store. -/
def DirBackend.open_obj (b : DirBackend) (fs : FS) (cls_table : String)
    (i : Option Int) : Except PyErr PyObj := do
  let d ← b.open_serialization fs cls_table i
  let obj := fromDict cls_table d
  Except.ok { obj with backend := some b }

/-- A store together with the file system it acts on; the wrappers below
package each public method as a transition on this state, making explicit
which parts a call may change. -/
structure StoreState where
  backend : DirBackend
  fs : FS
  deriving DecidableEq, Repr

def saveOp (st : StoreState) (obj : PyObj) :
    Except PyErr (Int × PyObj × StoreState) := do
  let (i, o, fs) ← st.backend.save st.fs obj
  Except.ok (i, o, { st with fs := fs })

def openOp (st : StoreState) (cls_table : String) (i : Option Int) :
    Except PyErr (PyObj × StoreState) := do
  let o ← st.backend.open_obj st.fs cls_table i
  Except.ok (o, st)

def containsOp (st : StoreState) (table : String) (i : Option Int) :
    Except PyErr (Bool × StoreState) := do
  let r ← st.backend.contains st.fs table i
  Except.ok (r, st)

def loadObjDataOp (st : StoreState) (obj : PyObj) :
    Except PyErr (Option (List Int) × StoreState) := do
  let r ← st.backend.load_obj_data st.fs obj
  Except.ok (r, st)

def saveDataObjOp (st : StoreState) (dobj : DataObj) :
    Except PyErr (Option Int × DataObj × StoreState) := do
  let (r, d1, fs) ← st.backend.save_data_obj st.fs dobj
  Except.ok (r, d1, { st with fs := fs })

/-- A one-row metadata mapping used to seed example tables. -/
def dSeed : ObjDict := { name := "x", data := none, data_object_ids := [] }

/-- Example store with bare extension strings, matching how `add_row` and
`save_data_obj` splice the suffix after a literal dot. -/
def bX : DirBackend := { directory := "root", suffix := "meta", data_suffix := "npy" }

/-- Example store with dotted extension strings, matching how
`get_path_to_row` compares `Path.suffix` and `with_suffix` validates. -/
def bM : DirBackend := { directory := "root", suffix := ".meta", data_suffix := ".npy" }

/-- Spec-style description of what the implemented `contains` actually
consults: some non-directory file in the folder — of any extension — whose
leading underscore-delimited token decodes to the integer. -/
def hasDecodableId (es : List Entry) (n : Int) : Prop :=
  ∃ e ∈ es, e.isDir = false ∧ pyIntChars (headTokenChars e.entryName.data) = some n

/-- Child data object for the concrete save scenario. -/
def c5child : DataObj :=
  { name := "c", table_name := "ct", id := none, backend := none, data := [1, 2] }

/-- Parent owning one child, in its own table. -/
def c5parent : PyObj :=
  { name := "p", table_name := "pt", id := none, backend := none,
    backend_name := none, has_data_attr := false, data_objects := [c5child] }

/-- Two seeded tables so that id allocation succeeds in each. -/
def c5fs : FS :=
  [("root/ct", [Entry.file "0_x.meta" (FileContent.json dSeed)]),
   ("root/pt", [Entry.file "0_x.meta" (FileContent.json dSeed)])]

def c5childAfter : DataObj :=
  { name := "c", table_name := "ct", id := some 1, backend := some bX,
    data := [1, 2] }

def c5parentAfter : PyObj :=
  { name := "p", table_name := "pt", id := some 1, backend := none,
    backend_name := some "DirBackend(root)", has_data_attr := false,
    data_objects := [c5childAfter] }

def c5fsAfter : FS :=
  [("root/ct",
    [Entry.file "0_x.meta" (FileContent.json dSeed),
     Entry.file "<built-in function id>_c.meta"
       (FileContent.json { name := "c", data := none, data_object_ids := [] }),
     Entry.file "1_c.npy" (FileContent.npy [1, 2])]),
   ("root/pt",
    [Entry.file "0_x.meta" (FileContent.json dSeed),
     Entry.file "<built-in function id>_p.meta"
       (FileContent.json { name := "p", data := none, data_object_ids := [some 1] })])]

/-- The object of the concrete bare save scenario, before saving... -/
def c7obj : PyObj :=
  { name := "p", table_name := "pt", id := none, backend := none,
    backend_name := none, has_data_attr := false, data_objects := [] }

/-- The same object after saving: `id` and `backend_name` set, `backend` untouched. -/
def c7objAfter : PyObj :=
  { name := "p", table_name := "pt", id := some 1, backend := none,
    backend_name := some "DirBackend(root)", has_data_attr := false,
    data_objects := [] }

def c7fs : FS := [("root/pt", [Entry.file "0_x.meta" (FileContent.json dSeed)])]

def c7fsAfter : FS :=
  [("root/pt",
    [Entry.file "0_x.meta" (FileContent.json dSeed),
     Entry.file "<built-in function id>_p.meta"
       (FileContent.json { name := "p", data := none, data_object_ids := [] })])]

/-- Object with no `data` attribute, for the no-op branch. -/
def c9objNoData : PyObj :=
  { name := "o", table_name := "t", id := none, backend := none,
    backend_name := none, has_data_attr := false, data_objects := [] }

/-- Persisted metadata-only object (row 0 exists, no payload file). -/
def c9obj : PyObj :=
  { name := "o", table_name := "t", id := some 0, backend := none,
    backend_name := none, has_data_attr := true, data_objects := [] }

def c9es : List Entry := [Entry.file "0_x.meta" (FileContent.json dSeed)]

def c9fs : FS := [("root/t", c9es)]

def c10stX : StoreState := { backend := bX, fs := c7fs }

def c10stM : StoreState := { backend := bM, fs := c9fs }

def c10stW : StoreState :=
  { backend := bX,
    fs := [("root/ct", [Entry.file "0_seed.meta" (FileContent.json dSeed)])] }

/-- The object `open` reconstructs from the seed row in the witness below. -/
def c10opened : PyObj :=
  { name := "x", table_name := "t", id := none, backend := some bM,
    backend_name := none, has_data_attr := false, data_objects := [] }

def c10dobj : DataObj :=
  { name := "c", table_name := "ct", id := none, backend := none, data := [5] }

def c10dobjAfter : DataObj :=
  { name := "c", table_name := "ct", id := some 1, backend := some bX,
    data := [5] }

def c10fsW : FS :=
  [("root/ct",
    [Entry.file "0_seed.meta" (FileContent.json dSeed),
     Entry.file "<built-in function id>_c.meta"
       (FileContent.json { name := "c", data := none, data_object_ids := [] }),
     Entry.file "1_c.npy" (FileContent.npy [5])])]

/-- C1: the claim reads "the metadata file written to the table directory has
a file name whose leading underscore-delimited token is exactly the integer
identifier that add_row allocated and returned".  On the code this fails:
line 92 interpolates the Python builtin `id` instead of the allocated `i`,
so saving an object named "alpha" into a table whose next id is 1 returns 1
but writes `<built-in function id>_alpha.meta`, whose leading token does not
decode to any integer at all. -/
theorem c1_add_row_writes_builtin_id_token :
    bX.add_row [("root/t", [Entry.file "0_x.meta" (FileContent.json dSeed)])]
      { name := "alpha", data := none, data_object_ids := [] } "t"
    = Except.ok (1,
      [("root/t",
        [Entry.file "0_x.meta" (FileContent.json dSeed),
         Entry.file "<built-in function id>_alpha.meta"
           (FileContent.json
             { name := "alpha", data := none, data_object_ids := [] })])])
    ∧ id_from_path "<built-in function id>_alpha.meta" = none
    ∧ "<built-in function id>_alpha.meta" ≠ "1_alpha.meta" := by
  decide

/-- C2: the claim reads "computing the next available identifier returns a
fixed, documented seed value (e.g., 0) rather than failing".  On the code
this fails: `max` of the empty id list of an existing empty table raises
`ValueError` (there is no seed case on line 128). -/
theorem c2_next_id_fails_on_empty_table :
    bX.get_next_available_id [("root/t", [])] "t"
      = Except.error PyErr.valueError := by
  decide

/-- C3: the claim reads "enumerating the table's identifiers completes
without raising any error and the malformed file's token is excluded".  On
the code this fails: the loop guards `int(...)` with `except TypeError`
(line 123), but `int` on a non-numeric string raises `ValueError`, so a
directory holding `notanumber_foo.meta` makes `get_id_list` raise instead
of skipping the file. -/
theorem c3_get_id_list_raises_on_malformed_name :
    bX.get_id_list
      [("root/t",
        [Entry.file "0_x.meta" (FileContent.json dSeed),
         Entry.file "notanumber_foo.meta" (FileContent.json dSeed)])] "t"
      = Except.error PyErr.valueError := by
  decide

/-- C4: the claim reads "save_data_obj called twice on the same in-memory
object through the same store yields the same identifier both times and
never creates a duplicate row".  On the code the second call raises instead:
the first call succeeds (id 1) but writes its metadata under
`<built-in function id>_c.meta` (the line-92 bug), and the second call's
dedup guard runs `contains`, whose id scan hits that undecodable leading
token and raises `ValueError` (the line-123 bug). -/
theorem c4_second_save_data_obj_raises :
    bX.save_data_obj [("root/ct", [Entry.file "0_seed.meta" (FileContent.json dSeed)])]
      { name := "c", table_name := "ct", id := none, backend := none, data := [5] }
    = Except.ok (some 1,
        { name := "c", table_name := "ct", id := some 1, backend := some bX,
          data := [5] },
        [("root/ct",
          [Entry.file "0_seed.meta" (FileContent.json dSeed),
           Entry.file "<built-in function id>_c.meta"
             (FileContent.json { name := "c", data := none, data_object_ids := [] }),
           Entry.file "1_c.npy" (FileContent.npy [5])])])
    ∧ bX.save_data_obj
        [("root/ct",
          [Entry.file "0_seed.meta" (FileContent.json dSeed),
           Entry.file "<built-in function id>_c.meta"
             (FileContent.json { name := "c", data := none, data_object_ids := [] }),
           Entry.file "1_c.npy" (FileContent.npy [5])])]
        { name := "c", table_name := "ct", id := some 1, backend := some bX,
          data := [5] }
      = Except.error PyErr.valueError := by
  decide

theorem contains_none_false (b : DirBackend) (fs : FS) (t : String) (r : Bool)
    (h : b.contains fs t none = Except.ok r) : r = false := by
  unfold DirBackend.contains at h
  cases hg : b.get_id_list fs t with
  | error e => rw [hg] at h; simp [bind, Except.bind] at h
  | ok ids =>
    rw [hg] at h
    simp [bind, Except.bind] at h
    exact h

theorem contains_true_isSome (b : DirBackend) (fs : FS) (t : String) (i : Option Int)
    (h : b.contains fs t i = Except.ok true) : i.isSome := by
  unfold DirBackend.contains at h
  cases hg : b.get_id_list fs t with
  | error e => rw [hg] at h; simp [bind, Except.bind] at h
  | ok ids =>
    rw [hg] at h
    cases i with
    | some n => simp
    | none => simp [bind, Except.bind] at h

theorem dedup_guard_true (b : DirBackend) (fs : FS) (c : DataObj)
    (h : b.dedup_guard fs c = Except.ok true) :
    c.id.isSome ∧ ∃ b2, c.backend = some b2 ∧ beEq b2 b = true := by
  unfold DirBackend.dedup_guard at h
  cases hb : c.backend with
  | none => rw [hb] at h; simp at h
  | some b2 =>
    rw [hb] at h
    cases hq : beEq b2 b with
    | false => simp [hq] at h
    | true =>
      simp only [hq, if_true] at h
      exact ⟨contains_true_isSome b fs c.table_name c.id h, b2, rfl, hq⟩

theorem save_data_obj_binds (b : DirBackend) (fs : FS) (c : DataObj)
    (r : Option Int) (c1 : DataObj) (fs1 : FS)
    (h : b.save_data_obj fs c = Except.ok (r, c1, fs1)) :
    c1.id.isSome ∧ ∃ b2, c1.backend = some b2 ∧ beEq b2 b = true := by
  unfold DirBackend.save_data_obj at h
  cases hd : b.dedup_guard fs c with
  | error e => rw [hd] at h; simp [bind, Except.bind] at h
  | ok ded =>
    rw [hd] at h
    cases ded with
    | true =>
      simp [bind, Except.bind] at h
      obtain ⟨h1, h2, h3⟩ := h
      subst h2
      obtain ⟨hi, b2, hb, hq⟩ := dedup_guard_true b fs c hd
      exact ⟨hi, b2, hb, hq⟩
    | false =>
      simp [bind, Except.bind] at h
      cases ha : b.add_row fs { dataObjAsDict c with data := none } c.table_name with
      | error e => rw [ha] at h; simp at h
      | ok v =>
        rw [ha] at h
        obtain ⟨i, fs2⟩ := v
        simp at h
        obtain ⟨h1, h2, h3⟩ := h
        subst h2
        exact ⟨by simp, b, by simp, by simp [beEq]⟩

theorem saveChildren_binds (b : DirBackend) :
    ∀ (l : List DataObj) (fs : FS) (cs : List DataObj) (fs1 : FS),
      b.saveChildren fs l = Except.ok (cs, fs1) →
      ∀ c ∈ cs, c.id.isSome ∧ ∃ b2, c.backend = some b2 ∧ beEq b2 b = true := by
  intro l
  induction l with
  | nil =>
    intro fs cs fs1 h c hc
    unfold DirBackend.saveChildren at h
    simp at h
    obtain ⟨h1, h2⟩ := h
    subst h1
    simp at hc
  | cons a rest ih =>
    intro fs cs fs1 h c hc
    unfold DirBackend.saveChildren at h
    cases hs : b.save_data_obj fs a with
    | error e => rw [hs] at h; simp [bind, Except.bind] at h
    | ok v =>
      rw [hs] at h
      obtain ⟨r, a1, fsa⟩ := v
      simp [bind, Except.bind] at h
      cases hr : b.saveChildren fsa rest with
      | error e => rw [hr] at h; simp at h
      | ok w =>
        rw [hr] at h
        obtain ⟨cs1, fsb⟩ := w
        simp at h
        obtain ⟨h1, h2⟩ := h
        subst h1
        rcases List.mem_cons.mp hc with hca | hcr
        · subst hca
          exact save_data_obj_binds b fs a r c fsa hs
        · exact ih fsa cs1 fsb hr c hcr

/-- C5: for every object with owned data objects, `save` runs the child-save
loop first, in the collection's order (`saveChildren` is that loop), so on a
successful save there is an intermediate file system `fsMid` in which every
child is already bound (identifier assigned, backend set to a store equal to
this one), and only then is the parent's metadata mapping — built from the
post-save children, embedding exactly their assigned identifiers — written
by `add_row` on `fsMid`. -/
theorem c5_children_saved_before_parent_row (b : DirBackend) (fs : FS)
    (obj : PyObj) (i : Int) (obj1 : PyObj) (fs1 : FS)
    (h : b.save fs obj = Except.ok (i, obj1, fs1)) :
    ∃ cs fsMid, b.saveChildren fs obj.data_objects = Except.ok (cs, fsMid) ∧
      (∀ c ∈ cs, c.id.isSome ∧ ∃ b2, c.backend = some b2 ∧ beEq b2 b = true) ∧
      obj1.data_objects = cs ∧
      (pyObjAsDict { obj with data_objects := cs }).data_object_ids
        = cs.map DataObj.id ∧
      b.add_row fsMid (pyObjAsDict { obj with data_objects := cs })
          obj.table_name
        = Except.ok (i, fs1) := by
  unfold DirBackend.save at h
  cases hs : b.saveChildren fs obj.data_objects with
  | error e => rw [hs] at h; simp [bind, Except.bind] at h
  | ok v =>
    rw [hs] at h
    obtain ⟨cs, fsMid⟩ := v
    simp [bind, Except.bind] at h
    cases ha : b.add_row fsMid (pyObjAsDict { obj with data_objects := cs }) obj.table_name with
    | error e => rw [ha] at h; simp at h
    | ok w =>
      rw [ha] at h
      obtain ⟨i2, fs2⟩ := w
      simp at h
      obtain ⟨h1, h2, h3⟩ := h
      subst h1
      subst h3
      refine ⟨cs, fsMid, rfl, saveChildren_binds b obj.data_objects fs cs fsMid hs, ?_, rfl, ?_⟩
      · rw [← h2]
      · rw [ha]

theorem idScan_mem (n : Int) :
    ∀ (es : List Entry) (ids : List Int), idScan es = Except.ok ids →
      (n ∈ ids ↔ hasDecodableId es n) := by
  intro es
  induction es with
  | nil =>
    intro ids h
    unfold idScan at h
    simp at h
    subst h
    simp [hasDecodableId]
  | cons e rest ih =>
    intro ids h
    unfold idScan at h
    cases e with
    | subdir nm =>
      simp [Entry.isDir] at h
      rw [ih ids h]
      simp [hasDecodableId, Entry.isDir]
    | file nm c =>
      simp [Entry.isDir, Entry.entryName] at h
      cases hp : pyIntChars (headTokenChars nm.data) with
      | none => rw [hp] at h; simp at h
      | some j =>
        rw [hp] at h
        cases hr : idScan rest with
        | error e2 => rw [hr] at h; simp [Except.map] at h
        | ok is2 =>
          rw [hr] at h
          simp [Except.map] at h
          subst h
          constructor
          · intro hmem
            rcases List.mem_cons.mp hmem with h1 | h2
            · exact ⟨Entry.file nm c, List.mem_cons_self _ _,
                by simp [Entry.isDir], by rw [Entry.entryName, hp, h1]⟩
            · obtain ⟨e2, he2, hd2, hp2⟩ := (ih is2 hr).mp h2
              exact ⟨e2, List.mem_cons_of_mem _ he2, hd2, hp2⟩
          · rintro ⟨e2, he2, hd2, hp2⟩
            rcases List.mem_cons.mp he2 with rfl | h2
            · rw [Entry.entryName] at hp2
              rw [hp] at hp2
              simp at hp2
              simp [hp2]
            · exact List.mem_cons_of_mem _ ((ih is2 hr).mpr ⟨e2, h2, hd2, hp2⟩)

/-- C6 (amended): `contains(table, id)` is *not* `find_row` succeeded — it
is membership of `id` among the integers decoded from the leading tokens of
*all* non-directory files in the table directory, with no extension filter:
whenever the id scan completes, `contains` answers true exactly when some
file of any extension decodes to the id. -/
theorem c6_contains_scans_all_files (b : DirBackend) (fs : FS) (t : String)
    (es : List Entry) (ids : List Int) (n : Int)
    (hf : fsFind fs (b.folderPath t) = some es)
    (hs : idScan es = Except.ok ids) :
    b.contains fs t (some n) = Except.ok true ↔ hasDecodableId es n := by
  simp [DirBackend.contains, DirBackend.get_id_list, hf, hs, bind, Except.bind]
  exact idScan_mem n es ids hs

/-- C6 (counterexample): the claim reads "contains(table, id) returns true if
and only if find_row succeeds ... and whose extension is the metadata
extension".  False on the code: a table holding only the payload file
`3_x.npy` makes `contains` answer true for id 3 (line 58 consults
`get_id_list`, which ignores extensions) while `get_path_to_row` — the
`find_row` of the spec — finds no row because `.npy` is not the metadata
extension. -/
theorem c6_counterexample :
    bM.contains [("root/t", [Entry.file "3_x.npy" (FileContent.npy [1])])] "t" (some 3)
      = Except.ok true
    ∧ bM.get_path_to_row [("root/t", [Entry.file "3_x.npy" (FileContent.npy [1])])] "t" (some 3)
      = Except.ok none := by
  decide

/-- Witness for C6's amended theorem at the same one-payload-file table. -/
theorem c6_witness :
    fsFind [("root/t", [Entry.file "3_x.npy" (FileContent.npy [1])])] (bM.folderPath "t")
      = some [Entry.file "3_x.npy" (FileContent.npy [1])]
    ∧ idScan [Entry.file "3_x.npy" (FileContent.npy [1])] = Except.ok [3]
    ∧ (bM.contains [("root/t", [Entry.file "3_x.npy" (FileContent.npy [1])])] "t" (some 3)
        = Except.ok true
       ↔ hasDecodableId [Entry.file "3_x.npy" (FileContent.npy [1])] 3) :=
  ⟨by decide, by decide,
    c6_contains_scans_all_files bM
      [("root/t", [Entry.file "3_x.npy" (FileContent.npy [1])])] "t"
      [Entry.file "3_x.npy" (FileContent.npy [1])] [3] 3 (by decide) (by decide)⟩

/-- C7 (amended): after a successful `save`, the object records the assigned
identifier in `id` and the store's *descriptive name string* in
`backend_name` (line 47); its `backend` attribute — the reference that
`save_data_obj`'s dedup guard compares against the store — is left exactly
as it was.  `save` does not bind a store reference. -/
theorem c7_save_sets_backend_name_only (b : DirBackend) (fs : FS)
    (obj : PyObj) (i : Int) (obj1 : PyObj) (fs1 : FS)
    (h : b.save fs obj = Except.ok (i, obj1, fs1)) :
    obj1.id = some i ∧ obj1.backend_name = some b.name
      ∧ obj1.backend = obj.backend := by
  unfold DirBackend.save at h
  cases hs : b.saveChildren fs obj.data_objects with
  | error e => rw [hs] at h; simp [bind, Except.bind] at h
  | ok v =>
    rw [hs] at h
    obtain ⟨cs, fsMid⟩ := v
    simp [bind, Except.bind] at h
    cases ha : b.add_row fsMid (pyObjAsDict { obj with data_objects := cs }) obj.table_name with
    | error e => rw [ha] at h; simp at h
    | ok w =>
      rw [ha] at h
      obtain ⟨i2, fs2⟩ := w
      simp at h
      obtain ⟨h1, h2, h3⟩ := h
      subst h1
      subst h2
      simp

/-- Witness for C5: a concrete successful save of a parent with one owned
data object, each table pre-seeded with a valid row. -/
theorem c5_witness :
    bX.save c5fs c5parent = Except.ok (1, c5parentAfter, c5fsAfter)
    ∧ (∃ cs fsMid, bX.saveChildren c5fs c5parent.data_objects = Except.ok (cs, fsMid) ∧
        (∀ c ∈ cs, c.id.isSome ∧ ∃ b2, c.backend = some b2 ∧ beEq b2 bX = true) ∧
        c5parentAfter.data_objects = cs ∧
        (pyObjAsDict { c5parent with data_objects := cs }).data_object_ids
          = cs.map DataObj.id ∧
        bX.add_row fsMid (pyObjAsDict { c5parent with data_objects := cs })
            c5parent.table_name
          = Except.ok (1, c5fsAfter)) :=
  ⟨by decide,
   c5_children_saved_before_parent_row bX c5fs c5parent 1 c5parentAfter c5fsAfter
     (by decide)⟩

/-- C7 (counterexample): the claim reads "it records the assigned identifier
i and a reference to the store instance that assigned it ... such that the
object's recorded binding compares equal to this store".  False on the code:
after a successful `save` the object's `backend` attribute is still `None` —
no store reference it could compare equal to the store is recorded; only the
name string `DirBackend(root)` is stored in `backend_name`. -/
theorem c7_counterexample :
    bX.save c7fs c7obj = Except.ok (1, c7objAfter, c7fsAfter)
    ∧ c7objAfter.backend = none
    ∧ c7objAfter.backend_name = some "DirBackend(root)" := by
  decide

/-- Witness for C7's amended theorem at the concrete bare save. -/
theorem c7_witness :
    bX.save c7fs c7obj = Except.ok (1, c7objAfter, c7fsAfter)
    ∧ (c7objAfter.id = some 1 ∧ c7objAfter.backend_name = some bX.name
        ∧ c7objAfter.backend = c7obj.backend) :=
  ⟨by decide, c7_save_sets_backend_name_only bX c7fs c7obj 1 c7objAfter c7fsAfter (by decide)⟩

theorem splitAtLastDot_none (l : List Char) (h : '.' ∉ l) :
    splitAtLastDot l = none := by
  induction l with
  | nil => rfl
  | cons c cs ih =>
    simp at h
    unfold splitAtLastDot
    rw [ih h.2]
    simp
    intro hc
    exact absurd hc.symm h.1

theorem pathStemChars_no_dot (l : List Char) (h : '.' ∉ l) :
    pathStemChars l = l := by
  unfold pathStemChars pathSplit
  rw [splitAtLastDot_none l h]

theorem splitOnChar_not_mem (c : Char) (l : List Char) (h : c ∉ l) :
    splitOnChar c l = [l] := by
  induction l with
  | nil => rfl
  | cons x xs ih =>
    simp at h
    simp only [splitOnChar]
    rw [ih h.2, if_neg (fun hc => h.1 hc.symm)]

theorem splitOnChar_append (c : Char) (t1 t2 : List Char) (h : c ∉ t1) :
    splitOnChar c (t1 ++ c :: t2) = t1 :: splitOnChar c t2 := by
  induction t1 with
  | nil =>
    simp only [List.nil_append, splitOnChar]
    simp
  | cons x xs ih =>
    simp at h
    simp only [List.cons_append, splitOnChar, List.append_eq]
    rw [ih h.2, if_neg (fun hc => h.1 hc.symm)]

/-- C8 (amended): `name_from_path` *concatenates* the stem tokens after the
first with no separator (`"".join` on line 15), so a display name containing
an underscore is not recovered; a display name free of underscores (and
dots) is recovered exactly, and a stem with no token after the identifier
decodes to the empty string. -/
theorem c8_name_from_path_concatenates (t1 t2 : List Char)
    (h1 : '.' ∉ t1) (h2 : '.' ∉ t2) (h3 : '_' ∉ t1) (h4 : '_' ∉ t2) :
    name_from_path (String.mk (t1 ++ '_' :: t2)) = String.mk t2
    ∧ name_from_path (String.mk t1) = "" := by
  constructor
  · unfold name_from_path
    have hd : '.' ∉ t1 ++ '_' :: t2 := by
      simp [h1, h2]
    show String.mk (joinChars ((splitOnChar '_' (pathStemChars (t1 ++ '_' :: t2))).drop 1)) = String.mk t2
    rw [pathStemChars_no_dot _ hd, splitOnChar_append '_' t1 t2 h3,
      splitOnChar_not_mem '_' t2 h4]
    simp [joinChars]
  · unfold name_from_path
    show String.mk (joinChars ((splitOnChar '_' (pathStemChars t1)).drop 1)) = ""
    rw [pathStemChars_no_dot _ h1, splitOnChar_not_mem '_' t1 h3]
    simp [joinChars]

/-- C8 (counterexample): the claim reads "decoding the display name rejoins
all tokens after the first with \x22_\x22 (e.g., stem \x227_a_b\x22 decodes
to name \x22a_b\x22)".  False on the code: line 15 joins with the empty
string, so the stem `7_a_b` decodes to `ab`, not `a_b`. -/
theorem c8_counterexample :
    name_from_path "7_a_b" = "ab" ∧ name_from_path "7_a_b" ≠ "a_b" := by
  decide

/-- Witness for C8's amended theorem at the stem `7_ab` (single trailing
token) and at the bare-identifier stem `7`. -/
theorem c8_witness :
    ('.' ∉ ['7'] ∧ '.' ∉ ['a', 'b'] ∧ '_' ∉ ['7'] ∧ '_' ∉ ['a', 'b'])
    ∧ (name_from_path (String.mk (['7'] ++ '_' :: ['a', 'b'])) = String.mk ['a', 'b']
       ∧ name_from_path (String.mk ['7']) = "") :=
  ⟨⟨by decide, by decide, by decide, by decide⟩,
   c8_name_from_path_concatenates ['7'] ['a', 'b']
     (by decide) (by decide) (by decide) (by decide)⟩

/-- C9 (amended): `load_obj_data` returns absent without consulting the file
system when the object declares no `data` attribute (the result is `none`
and is the same for any two file systems), and returns absent when the
metadata row exists but the payload file at the data suffix is missing.
But when the metadata row itself is absent — a not-yet-persisted object —
the code raises `AttributeError` (from `None.with_suffix`, line 66) rather
than returning absent, so the claim's "including ... not-yet-persisted
objects" does not hold. -/
theorem c9_load_obj_data_absent_cases (b : DirBackend) (obj : PyObj) :
    (obj.has_data_attr = false →
      ∀ fs fs2 : FS, b.load_obj_data fs obj = Except.ok none
        ∧ b.load_obj_data fs obj = b.load_obj_data fs2 obj)
    ∧ (∀ (fs : FS) (p q : String) (es : List Entry),
        obj.has_data_attr = true →
        b.get_path_to_row fs obj.table_name obj.id = Except.ok (some p) →
        withSuffix p b.data_suffix = Except.ok q →
        fsFind fs (b.folderPath obj.table_name) = some es →
        findFile es q = none →
        b.load_obj_data fs obj = Except.ok none) := by
  constructor
  · intro h fs fs2
    constructor <;> simp [DirBackend.load_obj_data, h]
  · intro fs p q es h hp hw hf hq
    simp [DirBackend.load_obj_data, h, hp, hw, hf, hq, bind, Except.bind]

/-- C9 (counterexample): the claim reads "on an object that does declare a
data attribute but whose payload file is missing — including metadata-only
and not-yet-persisted objects — it returns absent rather than raising an
error".  False on the code for the not-yet-persisted case: with no metadata
row for id 5, `get_path_to_row` yields `None` and `None.with_suffix` raises
`AttributeError`. -/
theorem c9_counterexample :
    bM.load_obj_data c9fs { c9obj with id := some 5 }
      = Except.error PyErr.attributeError := by
  decide

/-- Witness for C9's amended theorem: the no-`data`-attribute no-op on two
different file systems, and the payload-file-missing case on a persisted
metadata-only row. -/
theorem c9_witness :
    (c9objNoData.has_data_attr = false
      ∧ bM.load_obj_data [] c9objNoData = Except.ok none
      ∧ bM.load_obj_data [] c9objNoData = bM.load_obj_data c9fs c9objNoData)
    ∧ (c9obj.has_data_attr = true
      ∧ bM.get_path_to_row c9fs c9obj.table_name c9obj.id
          = Except.ok (some "0_x.meta")
      ∧ withSuffix "0_x.meta" bM.data_suffix = Except.ok "0_x.npy"
      ∧ fsFind c9fs (bM.folderPath c9obj.table_name) = some c9es
      ∧ findFile c9es "0_x.npy" = none
      ∧ bM.load_obj_data c9fs c9obj = Except.ok none) :=
  ⟨⟨by decide,
    ((c9_load_obj_data_absent_cases bM c9objNoData).1 (by decide) [] c9fs).1,
    ((c9_load_obj_data_absent_cases bM c9objNoData).1 (by decide) [] c9fs).2⟩,
   ⟨by decide, by decide, by decide, by decide, by decide,
    (c9_load_obj_data_absent_cases bM c9obj).2 c9fs "0_x.meta" "0_x.npy" c9es
      (by decide) (by decide) (by decide) (by decide) (by decide)⟩⟩

/-- C10: every public store operation (`save`, `open`, `contains`,
`load_obj_data`, `save_data_obj`) leaves the backend's own configuration —
directory, metadata suffix, data suffix — unchanged: no method ever assigns
to the instance, so a successful call transforms only the file-system part
of the store state (and the caller's object). -/
theorem c10_ops_preserve_backend_config (st : StoreState) :
    (∀ (obj : PyObj) (i : Int) (o : PyObj) (st1 : StoreState),
      saveOp st obj = Except.ok (i, o, st1) → st1.backend = st.backend)
    ∧ (∀ (t : String) (i : Option Int) (o : PyObj) (st1 : StoreState),
      openOp st t i = Except.ok (o, st1) → st1.backend = st.backend)
    ∧ (∀ (t : String) (i : Option Int) (r : Bool) (st1 : StoreState),
      containsOp st t i = Except.ok (r, st1) → st1.backend = st.backend)
    ∧ (∀ (obj : PyObj) (r : Option (List Int)) (st1 : StoreState),
      loadObjDataOp st obj = Except.ok (r, st1) → st1.backend = st.backend)
    ∧ (∀ (dobj : DataObj) (r : Option Int) (d1 : DataObj) (st1 : StoreState),
      saveDataObjOp st dobj = Except.ok (r, d1, st1) → st1.backend = st.backend) := by
  refine ⟨?_, ?_, ?_, ?_, ?_⟩
  · intro obj i o st1 h
    unfold saveOp at h
    cases hs : st.backend.save st.fs obj with
    | error e => rw [hs] at h; simp [bind, Except.bind] at h
    | ok v =>
      rw [hs] at h
      obtain ⟨i0, o0, fs0⟩ := v
      simp [bind, Except.bind] at h
      obtain ⟨h1, h2, h3⟩ := h
      rw [← h3]
  · intro t i o st1 h
    unfold openOp at h
    cases hs : st.backend.open_obj st.fs t i with
    | error e => rw [hs] at h; simp [bind, Except.bind] at h
    | ok v =>
      rw [hs] at h
      simp [bind, Except.bind] at h
      rw [← h.2]
  · intro t i r st1 h
    unfold containsOp at h
    cases hs : st.backend.contains st.fs t i with
    | error e => rw [hs] at h; simp [bind, Except.bind] at h
    | ok v =>
      rw [hs] at h
      simp [bind, Except.bind] at h
      rw [← h.2]
  · intro obj r st1 h
    unfold loadObjDataOp at h
    cases hs : st.backend.load_obj_data st.fs obj with
    | error e => rw [hs] at h; simp [bind, Except.bind] at h
    | ok v =>
      rw [hs] at h
      simp [bind, Except.bind] at h
      rw [← h.2]
  · intro dobj r d1 st1 h
    unfold saveDataObjOp at h
    cases hs : st.backend.save_data_obj st.fs dobj with
    | error e => rw [hs] at h; simp [bind, Except.bind] at h
    | ok v =>
      rw [hs] at h
      obtain ⟨r0, d0, fs0⟩ := v
      simp [bind, Except.bind] at h
      obtain ⟨h1, h2, h3⟩ := h
      rw [← h3]

/-- Witness for C10: one successful run of each of the five operations, with
the backend configuration unchanged in the resulting state. -/
theorem c10_witness :
    (saveOp c10stX c7obj
        = Except.ok (1, c7objAfter, { backend := bX, fs := c7fsAfter })
      ∧ (StoreState.mk bX c7fsAfter).backend = c10stX.backend)
    ∧ (openOp c10stM "t" (some 0) = Except.ok (c10opened, c10stM)
      ∧ c10stM.backend = c10stM.backend)
    ∧ (containsOp c10stM "t" (some 0) = Except.ok (true, c10stM)
      ∧ c10stM.backend = c10stM.backend)
    ∧ (loadObjDataOp c10stM c9obj = Except.ok (none, c10stM)
      ∧ c10stM.backend = c10stM.backend)
    ∧ (saveDataObjOp c10stW c10dobj
        = Except.ok (some 1, c10dobjAfter, { backend := bX, fs := c10fsW })
      ∧ (StoreState.mk bX c10fsW).backend = c10stW.backend) :=
  ⟨⟨by decide,
    (c10_ops_preserve_backend_config c10stX).1 c7obj 1 c7objAfter
      (StoreState.mk bX c7fsAfter) (by decide)⟩,
   ⟨by decide,
    (c10_ops_preserve_backend_config c10stM).2.1 "t" (some 0) c10opened c10stM
      (by decide)⟩,
   ⟨by decide,
    (c10_ops_preserve_backend_config c10stM).2.2.1 "t" (some 0) true c10stM
      (by decide)⟩,
   ⟨by decide,
    (c10_ops_preserve_backend_config c10stM).2.2.2.1 c9obj none c10stM
      (by decide)⟩,
   ⟨by decide,
    (c10_ops_preserve_backend_config c10stW).2.2.2.2 c10dobj (some 1)
      c10dobjAfter (StoreState.mk bX c10fsW) (by decide)⟩⟩
